import Mathlib

/-!
Shallow embedding of the exam-transcripts backend (FastAPI + SQLAlchemy),
restricted to the authentication and grading domain: the data model
(`User`, `Exam`, `UserExam`), the repository layer
(`app/repositories/exam_repository.py`, `app/repositories/user_repository.py`),
the permission checks (`app/core/permissions.py`), and the route handlers the
claims refer to.  The relational store is modelled as explicit lists of rows;
each handler is a pure function from a database state (plus request data) to a
result and a new database state.  Python `float` grades are modelled as `ℚ`,
SQL `DATE` values as `Int` (ordinal days), ids as `String` (UUID strings).
-/

/-- Error taxonomy of `app/core/exceptions.py` together with the
`HTTPException` status codes raised directly by the route handlers. -/
inductive ApiError where
  | authentication
  | authorization
  | validation
  | notFound
  | conflict
  | database
  deriving Repr, DecidableEq

/-- The HTTP status code attached to each error class in
`app/core/exceptions.py` (`AuthenticationError` 401, `AuthorizationError` 403,
`ValidationError` 422, `NotFoundError` 404, `ConflictError` 409,
`DatabaseError` 500). -/
def ApiError.statusCode : ApiError → Nat
  | .authentication => 401
  | .authorization => 403
  | .validation => 422
  | .notFound => 404
  | .conflict => 409
  | .database => 500

/-- Row of the `user` table (`app/models/user.py`): id (UUID string), unique
email, bcrypt password hash, role string. -/
structure User where
  id : String
  email : String
  hashed_password : String
  role : String
  deriving Repr, DecidableEq

/-- Row of the `exam` table (`app/models/exam.py`): id, unique title, date,
and the `created_at`/`updated_at` timestamps provided by the declarative base
(used only as sort columns). -/
structure Exam where
  id : String
  title : String
  date : Int
  created_at : Int
  updated_at : Int
  deriving Repr, DecidableEq

/-- Row of the `userexam` association table (`app/models/user_exam.py`):
user id, exam id, and the nullable vote (`None` = not graded yet). -/
structure UserExam where
  user_id : String
  exam_id : String
  vote : Option ℚ
  deriving Repr, DecidableEq

/-- `UserExam.is_graded` (`app/models/user_exam.py`): the vote is assigned. -/
def UserExam.is_graded (ue : UserExam) : Bool :=
  ue.vote.isSome

/-- `UserExam.grade_status` (`app/models/user_exam.py`). -/
def UserExam.grade_status (ue : UserExam) : String :=
  if ue.is_graded then "Graded" else "Pending"

/-- `UserExam.get_letter_grade` (`app/models/user_exam.py`, lines 101-120):
"N/A" when ungraded, otherwise the first matching threshold 90/80/70/60. -/
def UserExam.get_letter_grade (ue : UserExam) : String :=
  match ue.vote with
  | none => "N/A"
  | some v =>
    if v ≥ 90 then "A"
    else if v ≥ 80 then "B"
    else if v ≥ 70 then "C"
    else if v ≥ 60 then "D"
    else "F"

/-- The relational store: the three tables as lists of rows. -/
structure DB where
  users : List User
  exams : List Exam
  user_exams : List UserExam
  deriving Repr, DecidableEq

/-- Model of Python's `round(x, 2)` on rationals: round to the nearest
multiple of 1/100 (`round` rounds halves up; CPython rounds the underlying
binary float to even, which agrees except on exact decimal ties that binary
floats cannot represent anyway; no claim depends on a tie). -/
def round2 (q : ℚ) : ℚ :=
  (round (q * 100) : ℤ) / 100

/-- `UserRepository.get_by_id` (`app/repositories/user_repository.py`). -/
def UserRepository.get_by_id (db : DB) (user_id : String) : Option User :=
  db.users.find? (fun u => u.id == user_id)

/-- `UserRepository.get_by_email` (`app/repositories/user_repository.py`). -/
def UserRepository.get_by_email (db : DB) (email : String) : Option User :=
  db.users.find? (fun u => u.email == email)

/-- `ExamRepository.get_by_id` (`app/repositories/exam_repository.py`). -/
def ExamRepository.get_by_id (db : DB) (exam_id : String) : Option Exam :=
  db.exams.find? (fun e => e.id == exam_id)

/-- `ExamRepository.get_by_title` (`app/repositories/exam_repository.py`). -/
def ExamRepository.get_by_title (db : DB) (title : String) : Option Exam :=
  db.exams.find? (fun e => e.title == title)

/-- `ExamRepository.create` (`app/repositories/exam_repository.py`, lines
39-118).  Inserting a row whose title already exists violates the unique
constraint on `exam.title`; the raised `IntegrityError` is caught and
translated to `ValidationError` (422) — the `except IntegrityError` branch.
A fresh id for the new row is passed in explicitly. -/
def ExamRepository.create (db : DB) (title : String) (exam_date : Int)
    (now : Int) (newId : String) : Except ApiError Exam × DB :=
  if db.exams.any (fun e => e.title == title) then
    (.error .validation, db)
  else
    let exam : Exam := ⟨newId, title, exam_date, now, now⟩
    (.ok exam, { db with exams := db.exams ++ [exam] })

/-- `ExamRepository.get_user_exams` (`app/repositories/exam_repository.py`):
all association rows of one user. -/
def ExamRepository.get_user_exams (db : DB) (user_id : String) : List UserExam :=
  db.user_exams.filter (fun ue => ue.user_id == user_id)

/-- `ExamRepository.assign_exam_to_user` (`app/repositories/exam_repository.py`,
lines 346-373): pre-check for an existing (user, exam) row; `None` if it
exists, otherwise insert an ungraded row and return it. -/
def ExamRepository.assign_exam_to_user (db : DB) (user_id exam_id : String) :
    Option UserExam × DB :=
  match db.user_exams.find? (fun ue => ue.user_id == user_id && ue.exam_id == exam_id) with
  | some _ => (none, db)
  | none =>
    let user_exam : UserExam := ⟨user_id, exam_id, none⟩
    (some user_exam, { db with user_exams := db.user_exams ++ [user_exam] })

/-- Update the first list element satisfying `p` (the ORM mutates the single
row returned by `.first()`). -/
def updateFirst (p : α → Bool) (f : α → α) : List α → List α
  | [] => []
  | x :: xs => if p x then f x :: xs else x :: updateFirst p f xs

/-- `ExamRepository.assign_vote` (`app/repositories/exam_repository.py`, lines
375-403): look up the (user, exam) row; `None` if absent, otherwise set its
vote (unconditionally overwriting any previous value) and return it. -/
def ExamRepository.assign_vote (db : DB) (user_id exam_id : String) (vote : ℚ) :
    Option UserExam × DB :=
  match db.user_exams.find? (fun ue => ue.user_id == user_id && ue.exam_id == exam_id) with
  | none => (none, db)
  | some ue =>
    (some { ue with vote := some vote },
     { db with
        user_exams :=
          updateFirst (fun x => x.user_id == user_id && x.exam_id == exam_id)
            (fun x => { x with vote := some vote }) db.user_exams })

/-- Result record of `ExamRepository.get_exam_statistics`. -/
structure ExamStatistics where
  user_count : Nat
  graded_count : Nat
  pending_count : Nat
  average_vote : ℚ
  deriving Repr, DecidableEq

/-- `ExamRepository.get_exam_statistics` (`app/repositories/exam_repository.py`,
lines 405-431). -/
def ExamRepository.get_exam_statistics (db : DB) (exam_id : String) : ExamStatistics :=
  let user_exams := db.user_exams.filter (fun ue => ue.exam_id == exam_id)
  let total_users := user_exams.length
  let graded_exams := user_exams.filter (fun ue => ue.vote.isSome)
  let graded_count := graded_exams.length
  let pending_count := total_users - graded_count
  let average_vote : ℚ :=
    if graded_exams.isEmpty then 0
    else (graded_exams.map (fun ue => ue.vote.getD 0)).sum / (graded_count : ℚ)
  { user_count := total_users
    graded_count := graded_count
    pending_count := pending_count
    average_vote := round2 average_vote }

/-- `PermissionChecker.check_admin_permission` (`app/core/permissions.py`):
403 unless the role string equals `"admin"`. -/
def check_admin_permission (user_role : String) : Except ApiError Unit :=
  if user_role == "admin" then .ok () else .error .authorization

/-- `PermissionChecker.check_supervisor_permission` (`app/core/permissions.py`,
lines 50-65): 403 unless the role string equals `"supervisor"` (admin is not
accepted). -/
def check_supervisor_permission (user_role : String) : Except ApiError Unit :=
  if user_role == "supervisor" then .ok () else .error .authorization

/-- `PermissionChecker.check_supervisor_or_admin_permission`
(`app/core/permissions.py`). -/
def check_supervisor_or_admin_permission (user_role : String) : Except ApiError Unit :=
  if user_role == "supervisor" || user_role == "admin" then .ok ()
  else .error .authorization

/-- `require_admin` (`app/core/permissions.py`). -/
def require_admin (user_role : String) : Except ApiError Unit :=
  check_admin_permission user_role

/-- `require_supervisor` (`app/core/permissions.py`), used by the
`get_current_supervisor_user` dependency in `app/api/deps.py`. -/
def require_supervisor (user_role : String) : Except ApiError Unit :=
  check_supervisor_permission user_role

/-- Model of the external pyca `bcrypt` library (not part of this repository):
`isValidHash` is whether a string parses as a well-formed bcrypt hash (valid
salt), and `originalOf` gives the plaintext a well-formed hash was produced
from (the crypto itself is abstracted: a hash matches exactly its original
input, as the spec's Password Hasher section states). -/
structure Bcrypt where
  isValidHash : String → Bool
  originalOf : String → Option String

/-- `bcrypt.checkpw(password, hashed_password)`: raises
`ValueError("Invalid salt")` when the hash string is malformed, otherwise
returns whether the plaintext matches the hash's original input.  The raise
is modelled as `Except.error`. -/
def Bcrypt.checkpw (lib : Bcrypt) (password hashed_password : String) :
    Except String Bool :=
  if lib.isValidHash hashed_password then
    .ok (lib.originalOf hashed_password == some password)
  else
    .error "Invalid salt"

/-- `SecurityManager.verify_password` (`app/core/security.py`, lines 87-100):
a bare delegation to `bcrypt.checkpw` with no exception handling, so an error
raised by `checkpw` propagates to the caller. -/
def verify_password (lib : Bcrypt) (plain_password hashed_password : String) :
    Except String Bool :=
  lib.checkpw plain_password hashed_password

/-- `AuthService.authenticate_user` (`app/services/auth_service.py`, lines
37-55): look up the user by email (`None` if absent), then check the password;
`None` when verification returns false.  An exception escaping
`verify_password` propagates (modelled by the `.error` case). -/
def AuthService.authenticate_user (lib : Bcrypt) (db : DB)
    (email password : String) : Except String (Option User) :=
  match UserRepository.get_by_email db email with
  | none => .ok none
  | some user =>
    match verify_password lib password user.hashed_password with
    | .error e => .error e
    | .ok ok => .ok (if ok then some user else none)

/-- Outcome of `POST /auth/login` (`app/api/auth/routes.py`, lines 19-44):
a token response for the authenticated user, the 401 `HTTPException`
("Invalid email or password"), or — when an exception propagates out of the
service — the generic 500 handler. -/
inductive LoginOutcome where
  | success (user : User)
  | unauthorized
  | serverError
  deriving Repr, DecidableEq

/-- HTTP status of each login outcome. -/
def LoginOutcome.statusCode : LoginOutcome → Nat
  | .success _ => 200
  | .unauthorized => 401
  | .serverError => 500

/-- The `login` route (`app/api/auth/routes.py`, lines 19-44) composed with
`AuthService.login`: authenticate, 401 when no user comes back, otherwise a
token is issued for the user. -/
def login (lib : Bcrypt) (db : DB) (email password : String) : LoginOutcome :=
  match AuthService.authenticate_user lib db email password with
  | .error _ => .serverError
  | .ok none => .unauthorized
  | .ok (some user) => .success user

/-- Helper for `pySplit`: accumulate the current word while scanning. -/
def wordsAux : List Char → List Char → List (List Char)
  | [], acc => if acc.isEmpty then [] else [acc.reverse]
  | c :: rest, acc =>
    if c.isWhitespace then
      if acc.isEmpty then wordsAux rest [] else acc.reverse :: wordsAux rest []
    else wordsAux rest (c :: acc)

/-- Python's `str.split()` with no argument: split on runs of whitespace,
discarding empty parts. -/
def pySplit (s : String) : List String :=
  (wordsAux s.toList []).map (fun cs => String.mk cs)

/-- `ExamCreate.validate_title` (`app/schemas/exam.py`, lines 33-56), together
with the `Field(min_length=1)` bound: reject empty/whitespace-only titles,
collapse whitespace runs (`" ".join(v.split())`), reject normalized titles
shorter than 3 characters.  Any failure is a 422 validation error. -/
def ExamCreate.validate_title (v : String) : Except ApiError String :=
  if v.length < 1 then .error .validation
  else
    let parts := pySplit v
    if parts.isEmpty then .error .validation
    else
      let title := String.intercalate " " parts
      if title.length < 3 then .error .validation
      else .ok title

/-- `ExamCreate.validate_date` (`app/schemas/exam.py`, lines 58-77): reject
dates strictly before today. -/
def ExamCreate.validate_date (v : Int) (today : Int) : Except ApiError Int :=
  if v < today then .error .validation else .ok v

/-- Pydantic validation of an `ExamCreate` request body: both field
validators. -/
def ExamCreate.validate (title : String) (date today : Int) :
    Except ApiError (String × Int) :=
  match ExamCreate.validate_title title with
  | .error e => .error e
  | .ok t =>
    match ExamCreate.validate_date date today with
    | .error e => .error e
    | .ok d => .ok (t, d)

/-- `POST /private/admin/exams` (`app/api/private/admin.py`, `create_exam`):
the request body is validated by the `ExamCreate` schema, the handler then
requires the admin role and delegates to `ExamRepository.create`. -/
def create_exam (db : DB) (current_user_role : String) (title : String)
    (exam_date : Int) (today : Int) (newId : String) : Except ApiError Exam × DB :=
  match require_admin current_user_role with
  | .error e => (.error e, db)
  | .ok _ =>
    match ExamCreate.validate title exam_date today with
    | .error e => (.error e, db)
    | .ok (t, d) => ExamRepository.create db t d today newId

/-- `POST /private/users/exams/{exam_id}/register`
(`app/api/private/users.py`, lines 19-69, `register_for_exam`): 404 when the
exam does not exist, 409 when `assign_exam_to_user` reports an existing
(user, exam) row, success otherwise. -/
def register_for_exam (db : DB) (current_user_id : String) (exam_id : String) :
    Except ApiError Unit × DB :=
  match ExamRepository.get_by_id db exam_id with
  | none => (.error .notFound, db)
  | some _ =>
    match ExamRepository.assign_exam_to_user db current_user_id exam_id with
    | (none, db1) => (.error .conflict, db1)
    | (some _, db1) => (.ok (), db1)

/-- `VoteAssignment.validate_vote` (`app/schemas/exam.py`, lines 228-253)
together with the `Field(ge=0, le=100)` bounds: 422 outside [0, 100],
otherwise the vote rounded to 2 decimal places (`round(v, 2)`). -/
def VoteAssignment.validate_vote (v : ℚ) : Except ApiError ℚ :=
  if 0 ≤ v ∧ v ≤ 100 then .ok (round2 v) else .error .validation

/-- The `assignment` payload returned by `assign_vote_to_exam`
(`app/api/private/supervisor.py`). -/
structure VoteAssignmentResult where
  user_id : String
  exam_id : String
  vote : Option ℚ
  letter_grade : String
  deriving Repr, DecidableEq

/-- `PUT /private/supervisor/exams/{exam_id}/vote`
(`app/api/private/supervisor.py`, lines 66-117, `assign_vote_to_exam`): the
`get_current_supervisor_user` dependency requires the supervisor role, the
`VoteAssignment` body is validated, then: 404 when the exam does not exist,
404 when no (user, exam) association row exists, otherwise the vote is stored
and the updated assignment returned. -/
def assign_vote_to_exam (db : DB) (current_user_role : String) (exam_id : String)
    (vd_user_id : String) (vd_vote : ℚ) : Except ApiError VoteAssignmentResult × DB :=
  match check_supervisor_permission current_user_role with
  | .error e => (.error e, db)
  | .ok _ =>
    match VoteAssignment.validate_vote vd_vote with
    | .error e => (.error e, db)
    | .ok vote =>
      match ExamRepository.get_by_id db exam_id with
      | none => (.error .notFound, db)
      | some _ =>
        match ExamRepository.assign_vote db vd_user_id exam_id vote with
        | (none, db1) => (.error .notFound, db1)
        | (some ue, db1) =>
          (.ok ⟨ue.user_id, ue.exam_id, ue.vote, ue.get_letter_grade⟩, db1)

/-- One entry of the ungraded-assignments listing
(`app/api/private/supervisor.py`, lines 20-63); the user email and exam
title/date come from the joined rows, modelled as id lookups. -/
structure UngradedAssignmentEntry where
  user_id : String
  user_email : Option String
  exam_id : String
  exam_title : Option String
  exam_date : Option Int
  deriving Repr, DecidableEq

/-- `GET /private/supervisor/ungraded-assignments`
(`app/api/private/supervisor.py`, lines 20-63, `get_ungraded_assignments`):
supervisor-only; all association rows whose vote is NULL, joined with user
and exam data. -/
def get_ungraded_assignments (db : DB) (current_user_role : String) :
    Except ApiError (List UngradedAssignmentEntry) :=
  match check_supervisor_permission current_user_role with
  | .error e => .error e
  | .ok _ =>
    let ungraded := db.user_exams.filter (fun ue => ue.vote.isNone)
    .ok (ungraded.map (fun ue =>
      { user_id := ue.user_id
        user_email := (UserRepository.get_by_id db ue.user_id).map (fun u => u.email)
        exam_id := ue.exam_id
        exam_title := (ExamRepository.get_by_id db ue.exam_id).map (fun e => e.title)
        exam_date := (ExamRepository.get_by_id db ue.exam_id).map (fun e => e.date) }))

/-- `UserExamResponse` (`app/schemas/exam.py`, lines 207-225); the exam title
and date come from the joined exam row, modelled as an id lookup. -/
structure UserExamResponse where
  exam_id : String
  exam_title : Option String
  exam_date : Option Int
  vote : Option ℚ
  is_graded : Bool
  grade_status : String
  letter_grade : String
  deriving Repr, DecidableEq

/-- Construction of one `UserExamResponse` from an association row
(`app/api/private/users.py`, lines 93-104). -/
def mkUserExamResponse (db : DB) (ue : UserExam) : UserExamResponse :=
  { exam_id := ue.exam_id
    exam_title := (ExamRepository.get_by_id db ue.exam_id).map (fun e => e.title)
    exam_date := (ExamRepository.get_by_id db ue.exam_id).map (fun e => e.date)
    vote := ue.vote
    is_graded := ue.is_graded
    grade_status := ue.grade_status
    letter_grade := ue.get_letter_grade }

/-- The `statistics` object of `GET /private/users/me/exams`
(`app/api/private/users.py`, lines 116-126). -/
structure MyExamsStatistics where
  total_exams : Nat
  graded_exams : Nat
  pending_exams : Nat
  average_grade : Option ℚ
  completion_rate : ℚ
  deriving Repr, DecidableEq

/-- The full response of `GET /private/users/me/exams`. -/
structure MyExamsResponse where
  exams : List UserExamResponse
  statistics : MyExamsStatistics
  deriving Repr, DecidableEq

/-- `GET /private/users/me/exams` (`app/api/private/users.py`, lines 72-127,
`get_my_exams`): the current user's association rows as responses, plus
statistics.  `average_grade` reproduces the Python expression
`round(average_grade, 2) if average_grade else None`: the float `0.0` is
falsy, so a zero mean is reported as `None`. -/
def get_my_exams (db : DB) (current_user_id : String) : MyExamsResponse :=
  let user_exams := ExamRepository.get_user_exams db current_user_id
  let exam_responses := user_exams.map (mkUserExamResponse db)
  let total_exams := exam_responses.length
  let graded_exams := exam_responses.filter (fun er => er.is_graded)
  let graded_count := graded_exams.length
  let pending_count := total_exams - graded_count
  let average_grade : ℚ :=
    if graded_exams.isEmpty then 0
    else (graded_exams.map (fun er => er.vote.getD 0)).sum / (graded_count : ℚ)
  { exams := exam_responses
    statistics :=
      { total_exams := total_exams
        graded_exams := graded_count
        pending_exams := pending_count
        average_grade := if average_grade = 0 then none else some (round2 average_grade)
        completion_rate :=
          round2 (if total_exams > 0 then (graded_count : ℚ) / (total_exams : ℚ) * 100 else 0) } }

/-- The public `statistics` object of `GET /public/exams/{exam_id}`
(`app/api/public/exams.py`, lines 127-141): participant count and completion
rate only — no vote values and no average. -/
structure PublicExamStatistics where
  total_participants : Nat
  completion_rate : ℚ
  deriving Repr, DecidableEq

/-- The response of `GET /public/exams/{exam_id}`. -/
structure PublicExamDetails where
  exam : Exam
  statistics : PublicExamStatistics
  deriving Repr, DecidableEq

/-- `GET /public/exams/{exam_id}` (`app/api/public/exams.py`, lines 98-141,
`get_public_exam_details`): 404 when the exam does not exist, otherwise the
exam plus `total_participants` and `completion_rate` derived from
`get_exam_statistics` (the `average_vote` field is deliberately not
exposed). -/
def get_public_exam_details (db : DB) (exam_id : String) :
    Except ApiError PublicExamDetails :=
  match ExamRepository.get_by_id db exam_id with
  | none => .error .notFound
  | some exam =>
    let stats := ExamRepository.get_exam_statistics db exam_id
    .ok { exam := exam
          statistics :=
            { total_participants := stats.user_count
              completion_rate :=
                round2 (if stats.user_count > 0 then
                  (stats.graded_count : ℚ) / (stats.user_count : ℚ) * 100 else 0) } }

/-- Case-insensitive substring test modelling SQL `ILIKE '%t%'`
(`Exam.title.ilike(f"%Template%")` with the braces holding the filter value);
`splitOn` finds an occurrence iff it yields more than one part. -/
def ilikeContains (column_value pat : String) : Bool :=
  (column_value.toLower.splitOn pat.toLower).length ≥ 2

/-- The shared filter pipeline of `ExamRepository.get_all` and
`ExamRepository.count` (`app/repositories/exam_repository.py`): optional
title substring filter, optional date range. -/
def examsQueryFilter (db : DB) (title_filter : Option String)
    (date_from date_to : Option Int) : List Exam :=
  let q := db.exams
  let q := match title_filter with
    | some t => q.filter (fun e => ilikeContains e.title t)
    | none => q
  let q := match date_from with
    | some d => q.filter (fun e => decide (d ≤ e.date))
    | none => q
  match date_to with
  | some d => q.filter (fun e => decide (e.date ≤ d))
  | none => q

/-- The sort column selected by `getattr(Exam, sort_by, Exam.date)`: `title`,
`created_at` and `updated_at` by name, anything else falls back to `date`. -/
def examSortLE (sort_by : String) (a b : Exam) : Bool :=
  if sort_by == "title" then decide (a.title ≤ b.title)
  else if sort_by == "created_at" then decide (a.created_at ≤ b.created_at)
  else if sort_by == "updated_at" then decide (a.updated_at ≤ b.updated_at)
  else decide (a.date ≤ b.date)

/-- `ExamRepository.get_all` (`app/repositories/exam_repository.py`, lines
189-233): filter, order by the sort column (descending when `sort_order`
lower-cases to "desc"), then `OFFSET skip LIMIT limit`. -/
def ExamRepository.get_all (db : DB) (skip : Int) (limit : Int)
    (title_filter : Option String) (date_from date_to : Option Int)
    (sort_by : String) (sort_order : String) : List Exam :=
  let base := examsQueryFilter db title_filter date_from date_to
  let sorted :=
    if sort_order.toLower == "desc" then
      base.mergeSort (fun a b => examSortLE sort_by b a)
    else
      base.mergeSort (examSortLE sort_by)
  (sorted.drop skip.toNat).take limit.toNat

/-- `ExamRepository.count` (`app/repositories/exam_repository.py`, lines
299-327): the size of the filtered query. -/
def ExamRepository.count (db : DB) (title_filter : Option String)
    (date_from date_to : Option Int) : Nat :=
  (examsQueryFilter db title_filter date_from date_to).length

/-- `CommonQueryParams` (`app/api/deps.py`, lines 184-231): the constructor
normalizes `page` to at least 1 and clamps `page_size` into [1, 100]. -/
structure CommonQueryParams where
  page : Int
  page_size : Int
  sort_by : String
  sort_order : String
  deriving Repr, DecidableEq

/-- `CommonQueryParams.__init__`: `self.page = max(1, page)`,
`self.page_size = min(max(1, page_size), 100)`. -/
def CommonQueryParams.init (page page_size : Int) (sort_by sort_order : String) :
    CommonQueryParams :=
  { page := max 1 page
    page_size := min (max 1 page_size) 100
    sort_by := sort_by
    sort_order := sort_order.toLower }

/-- `CommonQueryParams.offset` (`app/api/deps.py`):
`(self.page - 1) * self.page_size`. -/
def CommonQueryParams.offset (q : CommonQueryParams) : Int :=
  (q.page - 1) * q.page_size

/-- `CommonQueryParams.limit` (`app/api/deps.py`): `self.page_size`. -/
def CommonQueryParams.limit (q : CommonQueryParams) : Int :=
  q.page_size

/-- `get_pagination_params` (`app/api/deps.py`, lines 234-245). -/
def get_pagination_params (page page_size : Int) : CommonQueryParams :=
  CommonQueryParams.init page page_size "created_at" "desc"

/-- The `pagination` metadata of `GET /public/exams`
(`app/api/public/exams.py`, lines 82-87). -/
structure PaginationMeta where
  total : Nat
  page : Int
  page_size : Int
  total_pages : Int
  deriving Repr, DecidableEq

/-- The response of `GET /public/exams`. -/
structure PublicExamsResponse where
  exams : List Exam
  pagination : PaginationMeta
  deriving Repr, DecidableEq

/-- `GET /public/exams` (`app/api/public/exams.py`, lines 20-95,
`get_public_exams`): invalid `sort_by`/`sort_order` values fall back to
"date"/"asc", pagination parameters are normalized by `CommonQueryParams`,
and the repository is queried with `skip = offset`, `limit = page_size`. -/
def get_public_exams (db : DB) (title : Option String)
    (date_from date_to : Option Int) (sort_by sort_order : String)
    (page page_size : Int) : PublicExamsResponse :=
  let sort_by1 :=
    if ["date", "title", "created_at", "updated_at"].contains sort_by
    then sort_by else "date"
  let sort_order1 :=
    if ["asc", "desc"].contains sort_order.toLower then sort_order else "asc"
  let pagination := get_pagination_params page page_size
  let exams := ExamRepository.get_all db pagination.offset pagination.limit
    title date_from date_to sort_by1 sort_order1
  let total_count := ExamRepository.count db title date_from date_to
  let total_pages := ((total_count : Int) + pagination.page_size - 1) / pagination.page_size
  { exams := exams
    pagination :=
      { total := total_count
        page := pagination.page
        page_size := pagination.page_size
        total_pages := total_pages } }

/-! ## Theorems about the claims -/

/-- C3: the letter grade is a pure function of an Assignment's numeric grade:
for every graded Assignment, grade ≥ 90 yields "A", 80 ≤ grade < 90 yields
"B", 70 ≤ grade < 80 yields "C", 60 ≤ grade < 70 yields "D", grade < 60
yields "F"; for every ungraded Assignment it yields "N/A". -/
theorem letter_grade_spec (ue : UserExam) (v : ℚ) :
    (∀ ue2 : UserExam, ue2.vote = ue.vote → ue2.get_letter_grade = ue.get_letter_grade) ∧
    (ue.vote = none → ue.get_letter_grade = "N/A") ∧
    (ue.vote = some v →
      ((90 ≤ v → ue.get_letter_grade = "A") ∧
       (80 ≤ v → v < 90 → ue.get_letter_grade = "B") ∧
       (70 ≤ v → v < 80 → ue.get_letter_grade = "C") ∧
       (60 ≤ v → v < 70 → ue.get_letter_grade = "D") ∧
       (v < 60 → ue.get_letter_grade = "F"))) := by
  refine ⟨fun ue2 h => by simp only [UserExam.get_letter_grade, h], ?_, ?_⟩
  · intro h
    simp [UserExam.get_letter_grade, h]
  · intro h
    simp only [UserExam.get_letter_grade, h]
    refine ⟨fun h1 => ?_, fun h1 h2 => ?_, fun h1 h2 => ?_, fun h1 h2 => ?_, fun h1 => ?_⟩ <;>
      split_ifs <;> first | rfl | (exfalso; linarith)

/-- C3 witness: the spec's concrete examples 92 → "A" and ungraded → "N/A". -/
theorem letter_grade_spec_witness :
    (UserExam.mk "u1" "e1" (some 92)).vote = some 92 ∧
    (UserExam.mk "u1" "e1" (some 92)).get_letter_grade = "A" ∧
    (UserExam.mk "u1" "e1" none).get_letter_grade = "N/A" :=
  ⟨rfl,
   ((letter_grade_spec ⟨"u1", "e1", some 92⟩ 92).2.2 rfl).1 (by norm_num),
   (letter_grade_spec ⟨"u1", "e1", none⟩ 0).2.1 rfl⟩

/-- C10: the public exam-list pagination parameters are normalized rather
than rejected: the effective page is `max 1 page`, the effective page size is
clamped into [1, 100], the query offset is `(page' - 1) * page_size'`, and
`get_public_exams` is a total function of these normalized values (no page or
page_size value causes an error). -/
theorem pagination_normalized (page page_size : Int) (db : DB)
    (title : Option String) (date_from date_to : Option Int)
    (sort_by sort_order : String) :
    (get_pagination_params page page_size).page = max 1 page ∧
    (get_pagination_params page page_size).page_size = min (max 1 page_size) 100 ∧
    (get_pagination_params page page_size).offset
      = (max 1 page - 1) * min (max 1 page_size) 100 ∧
    1 ≤ (get_pagination_params page page_size).page ∧
    1 ≤ (get_pagination_params page page_size).page_size ∧
    (get_pagination_params page page_size).page_size ≤ 100 ∧
    0 ≤ (get_pagination_params page page_size).offset ∧
    (get_public_exams db title date_from date_to sort_by sort_order page
        page_size).pagination.page = max 1 page ∧
    (get_public_exams db title date_from date_to sort_by sort_order page
        page_size).pagination.page_size = min (max 1 page_size) 100 ∧
    (get_public_exams db title date_from date_to sort_by sort_order page
        page_size).exams
      = ExamRepository.get_all db
          ((get_pagination_params page page_size).offset)
          ((get_pagination_params page page_size).limit)
          title date_from date_to
          (if ["date", "title", "created_at", "updated_at"].contains sort_by
           then sort_by else "date")
          (if ["asc", "desc"].contains sort_order.toLower then sort_order
           else "asc") := by
  refine ⟨rfl, rfl, rfl, ?_, ?_, ?_, ?_, rfl, rfl, rfl⟩
  · simp [get_pagination_params, CommonQueryParams.init]
  · simp only [get_pagination_params, CommonQueryParams.init]
    omega
  · simp only [get_pagination_params, CommonQueryParams.init]
    omega
  · simp only [get_pagination_params, CommonQueryParams.init, CommonQueryParams.offset]
    have h1 : (0 : Int) ≤ max 1 page - 1 := by omega
    have h2 : (0 : Int) ≤ min (max 1 page_size) 100 := by omega
    exact mul_nonneg h1 h2

/-- C8: the supervisor permission check passes exactly when the role equals
"supervisor"; a user whose role is admin is denied with 403 on both
supervisor-only operations (listing ungraded assignments and assigning a
vote), so admin does not subsume supervisor. -/
theorem admin_denied_on_supervisor_routes (role : String) (db : DB)
    (exam_id user_id : String) (vote : ℚ) :
    (check_supervisor_permission role = .ok () ↔ role = "supervisor") ∧
    check_supervisor_permission "admin" = .error .authorization ∧
    ApiError.statusCode .authorization = 403 ∧
    get_ungraded_assignments db "admin" = .error .authorization ∧
    assign_vote_to_exam db "admin" exam_id user_id vote
      = (.error .authorization, db) := by
  refine ⟨?_, rfl, rfl, rfl, rfl⟩
  constructor
  · intro h
    by_contra hne
    simp [check_supervisor_permission, hne] at h
  · intro h
    simp [check_supervisor_permission, h]

/-- C5: for every login request whose email matches an existing user but
whose password does not verify against that user's stored hash, login fails
with status 401 (not 422) and no token is issued. -/
theorem login_wrong_password_401 (lib : Bcrypt) (db : DB)
    (email password : String) (user : User)
    (hfind : UserRepository.get_by_email db email = some user)
    (hverify : verify_password lib password user.hashed_password = .ok false) :
    login lib db email password = .unauthorized ∧
    (login lib db email password).statusCode = 401 ∧
    LoginOutcome.statusCode .unauthorized ≠ 422 ∧
    ∀ u : User, login lib db email password ≠ .success u := by
  have hauth : AuthService.authenticate_user lib db email password = .ok none := by
    simp [AuthService.authenticate_user, hfind, hverify]
  have hlogin : login lib db email password = .unauthorized := by
    simp [login, hauth]
  exact ⟨hlogin, by simp [hlogin, LoginOutcome.statusCode],
         by simp [LoginOutcome.statusCode], fun u => by simp [hlogin]⟩

/-- A concrete bcrypt behaviour for witnesses: every hash string is treated
as well-formed, and every well-formed hash was produced from "correct". -/
def bcryptAllValid : Bcrypt :=
  { isValidHash := fun _ => true
    originalOf := fun _ => some "correct" }

/-- Concrete credential store for the C5 witness. -/
def dbLogin : DB :=
  { users := [⟨"u1", "alice@example.com", "HASH", "user"⟩]
    exams := []
    user_exams := [] }

/-- C5 witness: a stored user with the right email but a wrong password gets
the 401 outcome. -/
theorem login_wrong_password_401_witness :
    UserRepository.get_by_email dbLogin "alice@example.com"
        = some ⟨"u1", "alice@example.com", "HASH", "user"⟩ ∧
    verify_password bcryptAllValid "wrong"
        (User.mk "u1" "alice@example.com" "HASH" "user").hashed_password = .ok false ∧
    login bcryptAllValid dbLogin "alice@example.com" "wrong" = .unauthorized :=
  ⟨by decide, rfl,
   (login_wrong_password_401 bcryptAllValid dbLogin "alice@example.com" "wrong"
      ⟨"u1", "alice@example.com", "HASH", "user"⟩ (by decide) rfl).1⟩

/-- A concrete bcrypt behaviour modelling the library's hash-format check: a
well-formed bcrypt hash is exactly 60 characters ("$2b$" prefix, cost, salt
and digest), so a string of any other length is a malformed hash (invalid
salt). -/
def bcryptFormat : Bcrypt :=
  { isValidHash := fun s => s.length == 60
    originalOf := fun _ => none }

/-- C6 counterexample: `verify_password` called on a malformed hash string
does not return false — it propagates bcrypt's `ValueError("Invalid salt")`,
because `SecurityManager.verify_password` wraps `bcrypt.checkpw` in no
exception handler.  This refutes "it never throws; it returns false on a
malformed hash". -/
theorem verify_password_raises_on_malformed :
    verify_password bcryptFormat "password123" "not-a-bcrypt-hash"
        = .error "Invalid salt" ∧
    verify_password bcryptFormat "password123" "not-a-bcrypt-hash" ≠ .ok false := by
  have h1 : verify_password bcryptFormat "password123" "not-a-bcrypt-hash"
      = .error "Invalid salt" := rfl
  exact ⟨h1, by simp [h1]⟩

/-- C6 as amended: `verify_password` is a bare delegation to
`bcrypt.checkpw`: on a well-formed hash it returns true iff the plaintext is
the hash's original input, and on a malformed hash it propagates the
underlying `ValueError` instead of returning false. -/
theorem verify_password_delegates (lib : Bcrypt) (plain hashed : String) :
    (lib.isValidHash hashed = true →
       verify_password lib plain hashed = .ok (lib.originalOf hashed == some plain)) ∧
    (lib.isValidHash hashed = false →
       verify_password lib plain hashed = .error "Invalid salt") := by
  constructor
  · intro h
    simp [verify_password, Bcrypt.checkpw, h]
  · intro h
    simp [verify_password, Bcrypt.checkpw, h]

/-- C6 witness: both branches of the delegation at concrete inputs. -/
theorem verify_password_delegates_witness :
    bcryptFormat.isValidHash "not-a-valid-hash" = false ∧
    verify_password bcryptFormat "pw" "not-a-valid-hash" = .error "Invalid salt" ∧
    bcryptAllValid.isValidHash "$2b$12$abc" = true ∧
    verify_password bcryptAllValid "correct" "$2b$12$abc" = .ok true :=
  ⟨by decide,
   (verify_password_delegates bcryptFormat "pw" "not-a-valid-hash").2 (by decide),
   by decide,
   by
     have h := (verify_password_delegates bcryptAllValid "correct" "$2b$12$abc").1 (by decide)
     simpa using h⟩

/-- Filtering commutes with reshaping votes when the predicate is invariant
under the reshaping. -/
theorem filter_map_vote_comm (l : List UserExam) (g : UserExam → Option ℚ)
    (p : UserExam → Bool)
    (hp : ∀ ue : UserExam, p { ue with vote := g ue } = p ue) :
    (l.map (fun ue => { ue with vote := g ue })).filter p
      = (l.filter p).map (fun ue => { ue with vote := g ue }) := by
  induction l with
  | nil => rfl
  | cons x xs ih =>
    simp only [List.map_cons, List.filter_cons, hp x]
    cases hx : p x <;> simp [hx, ih]

/-- Reshaping votes preserves the length of any filter whose predicate is
invariant under the reshaping. -/
theorem length_filter_map_vote (l : List UserExam) (g : UserExam → Option ℚ)
    (p : UserExam → Bool)
    (hp : ∀ ue : UserExam, p { ue with vote := g ue } = p ue) :
    ((l.map (fun ue => { ue with vote := g ue })).filter p).length
      = (l.filter p).length := by
  rw [filter_map_vote_comm l g p hp, List.length_map]

/-- Reshaping every vote does not change how many rows an exam-id filter
keeps. -/
theorem filter_examId_length_map_vote (l : List UserExam) (g : UserExam → Option ℚ)
    (eid : String) :
    ((l.map (fun ue => { ue with vote := g ue })).filter
        (fun ue => ue.exam_id == eid)).length
      = (l.filter (fun ue => ue.exam_id == eid)).length :=
  length_filter_map_vote l g (fun ue => ue.exam_id == eid) (fun _ => rfl)

/-- Replacing every vote by one of the same None/Some shape does not change
how many rows of an exam are graded. -/
theorem filter_graded_length_map_vote (l : List UserExam) (g : UserExam → Option ℚ)
    (h : ∀ ue : UserExam, (g ue).isSome = ue.vote.isSome) (eid : String) :
    (((l.map (fun ue => { ue with vote := g ue })).filter
        (fun ue => ue.exam_id == eid)).filter (fun ue => ue.vote.isSome)).length
      = ((l.filter (fun ue => ue.exam_id == eid)).filter
          (fun ue => ue.vote.isSome)).length := by
  rw [filter_map_vote_comm l g (fun ue => ue.exam_id == eid) (fun _ => rfl)]
  exact length_filter_map_vote _ g (fun ue => ue.vote.isSome) (fun ue => h ue)

/-- Replacing every vote by one of the same None/Some shape changes neither
the participant count nor the graded count of `get_exam_statistics`. -/
theorem exam_statistics_counts_vote_blind (db : DB) (f : UserExam → Option ℚ)
    (h : ∀ ue : UserExam, (f ue).isSome = ue.vote.isSome) (exam_id : String) :
    (ExamRepository.get_exam_statistics
        { db with user_exams := db.user_exams.map (fun ue => { ue with vote := f ue }) }
        exam_id).user_count
      = (ExamRepository.get_exam_statistics db exam_id).user_count ∧
    (ExamRepository.get_exam_statistics
        { db with user_exams := db.user_exams.map (fun ue => { ue with vote := f ue }) }
        exam_id).graded_count
      = (ExamRepository.get_exam_statistics db exam_id).graded_count := by
  constructor
  · simpa only [ExamRepository.get_exam_statistics] using
      filter_examId_length_map_vote db.user_exams f exam_id
  · simpa only [ExamRepository.get_exam_statistics] using
      filter_graded_length_map_vote db.user_exams f h exam_id

/-- C9: the public exam-detail response depends only on which of the exam's
Assignments are graded, never on the numeric vote values: replacing every
vote by any value of the same graded/ungraded status leaves the response
(total_participants and completion_rate; no average-vote field exists in it)
unchanged. -/
theorem public_exam_details_vote_blind (db : DB) (f : UserExam → Option ℚ)
    (h : ∀ ue : UserExam, (f ue).isSome = ue.vote.isSome) (exam_id : String) :
    get_public_exam_details
        { db with user_exams := db.user_exams.map (fun ue => { ue with vote := f ue }) }
        exam_id
      = get_public_exam_details db exam_id := by
  obtain ⟨hc, hg⟩ := exam_statistics_counts_vote_blind db f h exam_id
  simp only [get_public_exam_details, ExamRepository.get_by_id]
  cases hfind : db.exams.find? (fun e => e.id == exam_id) <;> simp [hfind, hc, hg]

/-- Concrete state for the C9 witness: one exam with one graded and one
pending assignment. -/
def dbPublic : DB :=
  { users := []
    exams := [⟨"e1", "Algebra Final", 10, 0, 0⟩]
    user_exams := [⟨"u1", "e1", some 95⟩, ⟨"u2", "e1", none⟩] }

/-- C9 witness: rewriting every present vote to 17 leaves the public detail
response of the concrete state unchanged. -/
theorem public_exam_details_vote_blind_witness :
    get_public_exam_details
        { dbPublic with
            user_exams := dbPublic.user_exams.map
              (fun ue => { ue with vote := ue.vote.map (fun _ => (17 : ℚ)) }) }
        "e1"
      = get_public_exam_details dbPublic "e1" :=
  public_exam_details_vote_blind dbPublic
    (fun ue => ue.vote.map (fun _ => (17 : ℚ)))
    (fun ue => by cases hv : ue.vote <;> simp [hv]) "e1"

/-- Number of Assignment rows stored for one (user, exam) pair. -/
def pairCount (db : DB) (user_id exam_id : String) : Nat :=
  (db.user_exams.filter (fun ue => ue.user_id == user_id && ue.exam_id == exam_id)).length

/-- The `uq_user_exam` unique constraint (`app/models/user_exam.py`): at most
one Assignment row per (user, exam) pair. -/
def AtMostOnePerPair (db : DB) : Prop :=
  ∀ user_id exam_id : String, pairCount db user_id exam_id ≤ 1

/-- Run a sequence of register calls, threading the database state. -/
def registerSeq (db : DB) (calls : List (String × String)) : DB :=
  calls.foldl (fun s c => (register_for_exam s c.1 c.2).2) db

/-- A register call either 404s, 409s (exam found but the pair pre-exists),
or appends exactly one ungraded row — in the first two cases the state is
unchanged. -/
theorem register_result_cases (db : DB) (uid eid : String) :
    register_for_exam db uid eid = (.error .notFound, db) ∨
    register_for_exam db uid eid = (.error .conflict, db) ∨
    (db.user_exams.find? (fun ue => ue.user_id == uid && ue.exam_id == eid) = none ∧
     register_for_exam db uid eid
       = (.ok (), { db with user_exams := db.user_exams ++ [⟨uid, eid, none⟩] })) := by
  unfold register_for_exam ExamRepository.assign_exam_to_user
  cases hx : ExamRepository.get_by_id db eid with
  | none => exact Or.inl rfl
  | some ex =>
    cases hf : db.user_exams.find? (fun ue => ue.user_id == uid && ue.exam_id == eid) with
    | some ue => exact Or.inr (Or.inl rfl)
    | none => exact Or.inr (Or.inr ⟨rfl, rfl⟩)

/-- One register call preserves the at-most-one-row-per-pair invariant. -/
theorem register_preserves_inv (db : DB) (uid eid : String)
    (h : AtMostOnePerPair db) :
    AtMostOnePerPair (register_for_exam db uid eid).2 := by
  rcases register_result_cases db uid eid with hr | hr | ⟨hf, hr⟩
  · rw [hr]; exact h
  · rw [hr]; exact h
  · rw [hr]
    intro u e
    by_cases hue : uid = u ∧ eid = e
    · obtain ⟨hu, he⟩ := hue
      subst hu; subst he
      have hnil : db.user_exams.filter (fun ue => ue.user_id == uid && ue.exam_id == eid) = [] := by
        rw [List.filter_eq_nil_iff]
        intro a ha hpa
        exact absurd hpa (by simpa using List.find?_eq_none.mp hf a ha)
      simp [pairCount, List.filter_append, hnil]
    · have hfalse : ((⟨uid, eid, none⟩ : UserExam).user_id == u
          && (⟨uid, eid, none⟩ : UserExam).exam_id == e) = false := by
        have hor : (uid == u) = false ∨ (eid == e) = false := by
          rcases not_and_or.mp hue with hu | he
          · exact Or.inl (beq_eq_false_iff_ne.mpr hu)
          · exact Or.inr (beq_eq_false_iff_ne.mpr he)
        rcases hor with h1 | h1 <;> simp [h1]
      have hsame : pairCount { db with user_exams := db.user_exams ++ [⟨uid, eid, none⟩] } u e
          = pairCount db u e := by
        simp [pairCount, List.filter_append, hfalse]
      rw [hsame]
      exact h u e

/-- Every sequence of register calls preserves the invariant. -/
theorem registerSeq_preserves_inv (calls : List (String × String)) :
    ∀ db : DB, AtMostOnePerPair db → AtMostOnePerPair (registerSeq db calls) := by
  induction calls with
  | nil => exact fun db h => h
  | cons c cs ih =>
    intro db h
    exact ih _ (register_preserves_inv db c.1 c.2 h)

/-- C1: for every (user, exam) pair, at most one Assignment exists after any
sequence of register calls: starting from a state satisfying the uniqueness
constraint (and referential integrity of assignments to exams), the invariant
is preserved by every call sequence; a register call for a pair that does not
yet exist (and whose exam exists) creates exactly one ungraded Assignment for
it; and every register call for a pair that already exists fails with
Conflict (409) and leaves the state unchanged. -/
theorem register_at_most_one_per_pair (db : DB)
    (hinv : AtMostOnePerPair db)
    (hfk : ∀ ue ∈ db.user_exams, (ExamRepository.get_by_id db ue.exam_id).isSome = true) :
    (∀ calls : List (String × String), AtMostOnePerPair (registerSeq db calls)) ∧
    (∀ user_id exam_id : String,
       pairCount db user_id exam_id = 0 →
       (ExamRepository.get_by_id db exam_id).isSome = true →
       register_for_exam db user_id exam_id
         = (.ok (), { db with user_exams := db.user_exams ++ [⟨user_id, exam_id, none⟩] })) ∧
    (∀ user_id exam_id : String,
       1 ≤ pairCount db user_id exam_id →
       register_for_exam db user_id exam_id = (.error .conflict, db) ∧
       ApiError.statusCode .conflict = 409) := by
  refine ⟨fun calls => registerSeq_preserves_inv calls db hinv, ?_, ?_⟩
  · intro uid eid h0 hex
    have hnil : db.user_exams.filter (fun ue => ue.user_id == uid && ue.exam_id == eid) = [] :=
      List.length_eq_zero.mp h0
    have hf : db.user_exams.find? (fun ue => ue.user_id == uid && ue.exam_id == eid) = none := by
      rw [List.find?_eq_none]
      intro x hx hpx
      have : x ∈ db.user_exams.filter (fun ue => ue.user_id == uid && ue.exam_id == eid) :=
        List.mem_filter.mpr ⟨hx, hpx⟩
      simp [hnil] at this
    obtain ⟨ex, hexx⟩ := Option.isSome_iff_exists.mp hex
    unfold register_for_exam ExamRepository.assign_exam_to_user
    rw [hexx, hf]
  · intro uid eid h1
    have hne : db.user_exams.filter (fun ue => ue.user_id == uid && ue.exam_id == eid) ≠ [] := by
      intro hnil
      simp [pairCount, hnil] at h1
    obtain ⟨x, hxmem⟩ := List.exists_mem_of_ne_nil _ hne
    obtain ⟨hxl, hxp⟩ := List.mem_filter.mp hxmem
    have hx_eid : x.exam_id = eid := by
      have := hxp
      simp only [Bool.and_eq_true, beq_iff_eq] at this
      exact this.2
    have hex : (ExamRepository.get_by_id db eid).isSome = true := by
      have := hfk x hxl
      rwa [hx_eid] at this
    obtain ⟨ex, hexx⟩ := Option.isSome_iff_exists.mp hex
    have hfs : (db.user_exams.find? (fun ue => ue.user_id == uid && ue.exam_id == eid)).isSome :=
      List.find?_isSome.mpr ⟨x, hxl, hxp⟩
    obtain ⟨y, hy⟩ := Option.isSome_iff_exists.mp hfs
    refine ⟨?_, rfl⟩
    unfold register_for_exam ExamRepository.assign_exam_to_user
    rw [hexx, hy]

/-- Concrete state for the C1 witness: one exam, one existing registration. -/
def dbRegister : DB :=
  { users := []
    exams := [⟨"e1", "Algebra Final", 10, 0, 0⟩]
    user_exams := [⟨"u1", "e1", none⟩] }

/-- C1 witness: on the concrete state, re-registering the existing pair
yields Conflict and leaves the state unchanged, and registering a fresh pair
appends exactly one ungraded row. -/
theorem register_at_most_one_per_pair_witness :
    1 ≤ pairCount dbRegister "u1" "e1" ∧
    register_for_exam dbRegister "u1" "e1" = (.error .conflict, dbRegister) ∧
    pairCount dbRegister "u2" "e1" = 0 ∧
    register_for_exam dbRegister "u2" "e1"
      = (.ok (), { dbRegister with
          user_exams := dbRegister.user_exams ++ [⟨"u2", "e1", none⟩] }) := by
  have hinv : AtMostOnePerPair dbRegister :=
    fun u e => List.length_filter_le _ _
  have hfk : ∀ ue ∈ dbRegister.user_exams,
      (ExamRepository.get_by_id dbRegister ue.exam_id).isSome = true := by
    intro ue hue
    simp only [dbRegister, List.mem_singleton] at hue
    rw [hue]
    decide
  have h := register_at_most_one_per_pair dbRegister hinv hfk
  exact ⟨by decide, (h.2.2 "u1" "e1" (by decide)).1, by decide,
         h.2.1 "u2" "e1" (by decide) (by decide)⟩

/-- Looking up the predicate after updating its first match yields the
updated element, provided the update preserves the predicate. -/
theorem find?_updateFirst (p : α → Bool) (f : α → α) (l : List α) (x : α)
    (hfind : l.find? p = some x) (hpf : ∀ a, p a = true → p (f a) = true) :
    (updateFirst p f l).find? p = some (f x) := by
  induction l with
  | nil => simp at hfind
  | cons y ys ih =>
    cases hy : p y with
    | true =>
      rw [List.find?_cons_of_pos _ hy] at hfind
      obtain rfl : y = x := by simpa using hfind
      rw [updateFirst, if_pos hy, List.find?_cons_of_pos _ (hpf y hy)]
    | false =>
      rw [List.find?_cons_of_neg _ (by simp [hy])] at hfind
      rw [updateFirst, if_neg (by simp [hy]),
          List.find?_cons_of_neg _ (by simp [hy])]
      exact ih hfind

/-- C2 (amended): assignGrade via the supervisor route fails with Validation
(422) when the grade is outside [0, 100], fails with NotFound (404) when no
Assignment for the (user, exam) pair exists, and otherwise stores the given
grade rounded to 2 decimal places — `round(v, 2)` in the `VoteAssignment`
validator — overwriting any previously assigned grade (re-grading
succeeds). -/
theorem assign_vote_rounds_and_overwrites (db : DB) (exam_id user_id : String)
    (v : ℚ) :
    (¬ (0 ≤ v ∧ v ≤ 100) →
       assign_vote_to_exam db "supervisor" exam_id user_id v
           = (.error .validation, db) ∧
       ApiError.statusCode .validation = 422) ∧
    ((0 ≤ v ∧ v ≤ 100) →
       db.user_exams.find? (fun x => x.user_id == user_id && x.exam_id == exam_id)
           = none →
       assign_vote_to_exam db "supervisor" exam_id user_id v
           = (.error .notFound, db) ∧
       ApiError.statusCode .notFound = 404) ∧
    (∀ ue : UserExam, (0 ≤ v ∧ v ≤ 100) →
       db.user_exams.find? (fun x => x.user_id == user_id && x.exam_id == exam_id)
           = some ue →
       (ExamRepository.get_by_id db exam_id).isSome = true →
       (assign_vote_to_exam db "supervisor" exam_id user_id v).1
           = .ok ⟨ue.user_id, ue.exam_id, some (round2 v),
                  ({ ue with vote := some (round2 v) } : UserExam).get_letter_grade⟩ ∧
       (assign_vote_to_exam db "supervisor" exam_id user_id v).2
           = { db with user_exams :=
                (updateFirst (fun x => x.user_id == user_id && x.exam_id == exam_id)
                  (fun x => { x with vote := some (round2 v) }) db.user_exams) } ∧
       ((assign_vote_to_exam db "supervisor" exam_id user_id v).2.user_exams.find?
            (fun x => x.user_id == user_id && x.exam_id == exam_id))
           = some { ue with vote := some (round2 v) }) := by
  refine ⟨?_, ?_, ?_⟩
  · intro hnot
    refine ⟨?_, rfl⟩
    simp [assign_vote_to_exam, check_supervisor_permission,
      VoteAssignment.validate_vote, hnot]
  · intro hvalid hf
    refine ⟨?_, rfl⟩
    cases hx : ExamRepository.get_by_id db exam_id with
    | none =>
      simp [assign_vote_to_exam, check_supervisor_permission,
        VoteAssignment.validate_vote, hvalid, hx]
    | some ex =>
      simp [assign_vote_to_exam, check_supervisor_permission,
        VoteAssignment.validate_vote, hvalid, hx,
        ExamRepository.assign_vote, hf]
  · intro ue hvalid hfind hex
    obtain ⟨ex, hexx⟩ := Option.isSome_iff_exists.mp hex
    have hres : assign_vote_to_exam db "supervisor" exam_id user_id v
        = (.ok ⟨ue.user_id, ue.exam_id, some (round2 v),
               ({ ue with vote := some (round2 v) } : UserExam).get_letter_grade⟩,
           { db with user_exams :=
              (updateFirst (fun x => x.user_id == user_id && x.exam_id == exam_id)
                (fun x => { x with vote := some (round2 v) }) db.user_exams) }) := by
      unfold assign_vote_to_exam check_supervisor_permission
        VoteAssignment.validate_vote ExamRepository.assign_vote
      have hrole : (("supervisor" == "supervisor") = true) := rfl
      rw [if_pos hrole, if_pos hvalid, hexx, hfind]
    refine ⟨by rw [hres], by rw [hres], ?_⟩
    rw [hres]
    exact find?_updateFirst _ _ db.user_exams ue hfind (fun a ha => ha)

/-- Concrete state for the C2 counterexample: one registered, ungraded
assignment. -/
def dbVote : DB :=
  { users := []
    exams := [⟨"e1", "Algebra Final", 10, 0, 0⟩]
    user_exams := [⟨"u1", "e1", none⟩] }

/-- C2 counterexample: assigning the in-range grade 1/250 (= 0.004) succeeds
but stores 0, not the given value — the `VoteAssignment` validator rounds
with `round(v, 2)` — refuting "sets the Assignment's grade to the given
value". -/
theorem assign_vote_stores_rounded_value :
    (assign_vote_to_exam dbVote "supervisor" "e1" "u1" (1/250)).1
        = .ok ⟨"u1", "e1", some 0, "F"⟩ ∧
    (assign_vote_to_exam dbVote "supervisor" "e1" "u1" (1/250)).2.user_exams
        = [⟨"u1", "e1", some 0⟩] ∧
    (0 : ℚ) ≠ 1/250 := by
  have hr : round2 ((1 : ℚ)/250) = 0 := by norm_num [round2, round_eq]
  obtain ⟨h1, h2, h3⟩ :=
    (assign_vote_rounds_and_overwrites dbVote "e1" "u1" (1/250)).2.2
      ⟨"u1", "e1", none⟩ (by norm_num) (by decide) (by decide)
  refine ⟨?_, ?_, by norm_num⟩
  · rw [h1, hr]
    norm_num [UserExam.get_letter_grade]
  · rw [h2]
    simp only [dbVote, updateFirst]
    norm_num [round2, round_eq]

/-- Concrete state for the C2 witness: one already-graded assignment. -/
def dbVoteGraded : DB :=
  { users := []
    exams := [⟨"e1", "Algebra Final", 10, 0, 0⟩]
    user_exams := [⟨"u1", "e1", some 50⟩] }

/-- C2 witness: re-grading the already-graded assignment with 92 overwrites
the stored 50 with 92. -/
theorem assign_vote_rounds_and_overwrites_witness :
    ((0 : ℚ) ≤ 92 ∧ (92 : ℚ) ≤ 100) ∧
    dbVoteGraded.user_exams.find? (fun x => x.user_id == "u1" && x.exam_id == "e1")
        = some ⟨"u1", "e1", some 50⟩ ∧
    ((assign_vote_to_exam dbVoteGraded "supervisor" "e1" "u1" 92).2.user_exams.find?
        (fun x => x.user_id == "u1" && x.exam_id == "e1"))
        = some ⟨"u1", "e1", some (round2 92)⟩ ∧
    round2 92 = 92 := by
  refine ⟨by norm_num, by decide, ?_, by norm_num [round2, round_eq]⟩
  exact ((assign_vote_rounds_and_overwrites dbVoteGraded "e1" "u1" 92).2.2
    ⟨"u1", "e1", some 50⟩ (by norm_num) (by decide) (by decide)).2.2

/-- C4 (amended): exam creation fails with Validation (422) — not Conflict
(409) — when an exam with the same title already exists: the storage-layer
uniqueness violation is caught and translated to a domain-level
ValidationError, never propagated as a raw storage error; it fails with
Validation when the date is in the past or the title has fewer than 3
meaningful characters; otherwise it creates and returns the exam. -/
theorem create_exam_spec (db : DB) (title t : String) (d today : Int)
    (newId : String) :
    ((String.intercalate " " (pySplit title)).length < 3 →
       create_exam db "admin" title d today newId = (.error .validation, db)) ∧
    (ExamCreate.validate_title title = .ok t →
       (d < today →
          create_exam db "admin" title d today newId = (.error .validation, db)) ∧
       (today ≤ d →
          (db.exams.any (fun e => e.title == t) = true →
             create_exam db "admin" title d today newId = (.error .validation, db) ∧
             ApiError.statusCode .validation = 422 ∧
             ApiError.validation ≠ ApiError.conflict) ∧
          (db.exams.any (fun e => e.title == t) = false →
             create_exam db "admin" title d today newId
               = (.ok ⟨newId, t, d, today, today⟩,
                  { db with exams := db.exams ++ [⟨newId, t, d, today, today⟩] })))) := by
  constructor
  · intro hshort
    have hvt : ExamCreate.validate_title title = .error .validation := by
      unfold ExamCreate.validate_title
      by_cases h1 : title.length < 1
      · rw [if_pos h1]
      · rw [if_neg h1]
        by_cases h2 : (pySplit title).isEmpty = true
        · simp only [h2, if_true]
        · simp only [Bool.not_eq_true] at h2
          simp only [h2, Bool.false_eq_true, if_false]
          rw [if_pos hshort]
    simp [create_exam, require_admin, check_admin_permission,
      ExamCreate.validate, hvt]
  · intro hvt
    constructor
    · intro hd
      have hvd : ExamCreate.validate_date d today = .error .validation := by
        unfold ExamCreate.validate_date
        rw [if_pos hd]
      simp [create_exam, require_admin, check_admin_permission,
        ExamCreate.validate, hvt, hvd]
    · intro hd
      have hvd : ExamCreate.validate_date d today = .ok d := by
        unfold ExamCreate.validate_date
        rw [if_neg (by omega)]
      constructor
      · intro hdup
        refine ⟨?_, rfl, by decide⟩
        simp [create_exam, require_admin, check_admin_permission,
          ExamCreate.validate, hvt, hvd, ExamRepository.create, hdup]
      · intro hdup
        simp [create_exam, require_admin, check_admin_permission,
          ExamCreate.validate, hvt, hvd, ExamRepository.create, hdup]

/-- Concrete state for the C4 counterexample and witness. -/
def dbExam : DB :=
  { users := []
    exams := [⟨"e1", "Midterm Exam", 30, 0, 0⟩]
    user_exams := [] }

/-- C4 counterexample: creating an exam whose title "Midterm Exam" already
exists (with a valid future date) fails with Validation (422), not Conflict
(409), refuting "Exam creation fails with Conflict when an exam with the
same title already exists". -/
theorem create_exam_duplicate_title_not_conflict :
    create_exam dbExam "admin" "Midterm Exam" 40 20 "e2"
        = (.error .validation, dbExam) ∧
    ApiError.validation ≠ ApiError.conflict ∧
    ApiError.statusCode .validation = 422 ∧
    ApiError.statusCode .conflict = 409 := by
  have hvt : ExamCreate.validate_title "Midterm Exam" = .ok "Midterm Exam" := rfl
  refine ⟨?_, by decide, rfl, rfl⟩
  exact (((create_exam_spec dbExam "Midterm Exam" "Midterm Exam" 40 20 "e2").2
    hvt).2 (by omega)).1 (by decide) |>.1

/-- C4 witness: a fresh title "Math Final" with a valid date is created and
appended, a too-short title "ab" is rejected, and a past date is rejected. -/
theorem create_exam_spec_witness :
    ExamCreate.validate_title "Math Final" = .ok "Math Final" ∧
    create_exam dbExam "admin" "Math Final" 40 20 "e2"
        = (.ok ⟨"e2", "Math Final", 40, 20, 20⟩,
           { dbExam with exams := dbExam.exams ++ [⟨"e2", "Math Final", 40, 20, 20⟩] }) ∧
    (String.intercalate " " (pySplit "ab")).length < 3 ∧
    create_exam dbExam "admin" "ab" 40 20 "e2" = (.error .validation, dbExam) ∧
    create_exam dbExam "admin" "Math Final" 10 20 "e2" = (.error .validation, dbExam) := by
  have hvt : ExamCreate.validate_title "Math Final" = .ok "Math Final" := rfl
  refine ⟨hvt, ?_, by decide, ?_, ?_⟩
  · exact (((create_exam_spec dbExam "Math Final" "Math Final" 40 20 "e2").2
      hvt).2 (by omega)).2 (by decide)
  · exact (create_exam_spec dbExam "ab" "ab" 40 20 "e2").1 (by decide)
  · exact ((create_exam_spec dbExam "Math Final" "Math Final" 10 20 "e2").2 hvt).1
      (by omega)

/-- The graded votes of one user, read directly from the store: the vote
values of that user's association rows that are graded. -/
def userVotes (db : DB) (user_id : String) : List ℚ :=
  (db.user_exams.filter (fun ue => ue.user_id == user_id)).filterMap
    (fun ue => ue.vote)

/-- Filtering the response list on `is_graded` is filtering the rows on
`is_graded` (the response field is copied from the row). -/
theorem graded_responses_eq (db : DB) (l : List UserExam) :
    (l.map (mkUserExamResponse db)).filter (fun er => er.is_graded)
      = (l.filter (fun ue => ue.is_graded)).map (mkUserExamResponse db) := by
  rw [List.filter_map]
  rfl

/-- Counting graded rows equals counting present votes. -/
theorem length_graded_eq_filterMap (l : List UserExam) :
    (l.filter (fun ue => ue.is_graded)).length
      = (l.filterMap (fun ue => ue.vote)).length := by
  induction l with
  | nil => rfl
  | cons x xs ih =>
    simp only [UserExam.is_graded] at ih ⊢
    cases hv : x.vote with
    | none => simp [List.filter_cons, List.filterMap_cons, hv, ih]
    | some q => simp [List.filter_cons, List.filterMap_cons, hv, ih]

/-- Summing `vote.getD 0` over graded rows equals summing the present
votes. -/
theorem sum_graded_eq_filterMap (l : List UserExam) :
    ((l.filter (fun ue => ue.is_graded)).map (fun ue => ue.vote.getD 0)).sum
      = (l.filterMap (fun ue => ue.vote)).sum := by
  induction l with
  | nil => rfl
  | cons x xs ih =>
    simp only [UserExam.is_graded] at ih ⊢
    cases hv : x.vote with
    | none => simp [List.filter_cons, List.filterMap_cons, hv, ih]
    | some q => simp [List.filter_cons, List.filterMap_cons, hv, ih]

/-- A user has graded rows iff they have present votes. -/
theorem isEmpty_graded_eq_filterMap (l : List UserExam) :
    (l.filter (fun ue => ue.is_graded)).isEmpty
      = (l.filterMap (fun ue => ue.vote)).isEmpty := by
  induction l with
  | nil => rfl
  | cons x xs ih =>
    simp only [UserExam.is_graded] at ih ⊢
    cases hv : x.vote with
    | none => simp [List.filter_cons, List.filterMap_cons, hv, ih]
    | some q => simp [List.filter_cons, List.filterMap_cons, hv]

/-- C7 (amended): listForUser returns the user's Assignments with derived
letter grade, and the per-user statistics report the count of graded
Assignments, the count of pending Assignments, and the mean grade over graded
Assignments only rounded to 2 decimals — except that the mean is reported as
null whenever it equals 0 (in particular when no Assignment is graded),
because the handler guards the rounding with Python truthiness
(`round(average_grade, 2) if average_grade else None`). -/
theorem my_exams_statistics_spec (db : DB) (user_id : String) :
    (get_my_exams db user_id).exams
        = (ExamRepository.get_user_exams db user_id).map (mkUserExamResponse db) ∧
    (∀ ue : UserExam, (mkUserExamResponse db ue).letter_grade = ue.get_letter_grade) ∧
    (get_my_exams db user_id).statistics.total_exams
        = (ExamRepository.get_user_exams db user_id).length ∧
    (get_my_exams db user_id).statistics.graded_exams
        = (userVotes db user_id).length ∧
    (get_my_exams db user_id).statistics.pending_exams
        = (ExamRepository.get_user_exams db user_id).length
            - (userVotes db user_id).length ∧
    ((userVotes db user_id).sum / ((userVotes db user_id).length : ℚ) ≠ 0 →
       userVotes db user_id ≠ [] →
       (get_my_exams db user_id).statistics.average_grade
         = some (round2
             ((userVotes db user_id).sum / ((userVotes db user_id).length : ℚ)))) ∧
    ((userVotes db user_id).sum / ((userVotes db user_id).length : ℚ) = 0 →
       (get_my_exams db user_id).statistics.average_grade = none) := by
  have hGlen : (((ExamRepository.get_user_exams db user_id).map
      (mkUserExamResponse db)).filter (fun er => er.is_graded)).length
      = (userVotes db user_id).length := by
    rw [graded_responses_eq, List.length_map, length_graded_eq_filterMap]
    rfl
  have hGsum : ((((ExamRepository.get_user_exams db user_id).map
      (mkUserExamResponse db)).filter (fun er => er.is_graded)).map
      (fun er => er.vote.getD 0)).sum = (userVotes db user_id).sum := by
    rw [graded_responses_eq, List.map_map]
    exact sum_graded_eq_filterMap _
  have hGempty : (((ExamRepository.get_user_exams db user_id).map
      (mkUserExamResponse db)).filter (fun er => er.is_graded)).isEmpty
      = (userVotes db user_id).isEmpty := by
    rw [graded_responses_eq]
    have hmape : ∀ l2 : List UserExam,
        ((l2.map (mkUserExamResponse db))).isEmpty = l2.isEmpty := by
      intro l2
      cases l2 <;> rfl
    rw [hmape, isEmpty_graded_eq_filterMap]
    rfl
  have hag : (get_my_exams db user_id).statistics.average_grade
      = (if (if (userVotes db user_id).isEmpty then (0 : ℚ)
             else (userVotes db user_id).sum / ((userVotes db user_id).length : ℚ))
            = 0 then none
         else some (round2
            (if (userVotes db user_id).isEmpty then (0 : ℚ)
             else (userVotes db user_id).sum / ((userVotes db user_id).length : ℚ)))) := by
    have h0 : (get_my_exams db user_id).statistics.average_grade
        = (if (if (((ExamRepository.get_user_exams db user_id).map
                  (mkUserExamResponse db)).filter (fun er => er.is_graded)).isEmpty
               then (0 : ℚ)
               else ((((ExamRepository.get_user_exams db user_id).map
                  (mkUserExamResponse db)).filter (fun er => er.is_graded)).map
                  (fun er => er.vote.getD 0)).sum
                 / ((((ExamRepository.get_user_exams db user_id).map
                  (mkUserExamResponse db)).filter (fun er => er.is_graded)).length : ℚ))
              = 0 then none
           else some (round2
              (if (((ExamRepository.get_user_exams db user_id).map
                  (mkUserExamResponse db)).filter (fun er => er.is_graded)).isEmpty
               then (0 : ℚ)
               else ((((ExamRepository.get_user_exams db user_id).map
                  (mkUserExamResponse db)).filter (fun er => er.is_graded)).map
                  (fun er => er.vote.getD 0)).sum
                 / ((((ExamRepository.get_user_exams db user_id).map
                  (mkUserExamResponse db)).filter (fun er => er.is_graded)).length : ℚ)))) :=
      rfl
    rw [h0, hGempty, hGsum, hGlen]
  refine ⟨rfl, fun ue => rfl, List.length_map _ _, hGlen, ?_, ?_, ?_⟩
  · have hp : (get_my_exams db user_id).statistics.pending_exams
        = ((ExamRepository.get_user_exams db user_id).map
            (mkUserExamResponse db)).length
          - (((ExamRepository.get_user_exams db user_id).map
            (mkUserExamResponse db)).filter (fun er => er.is_graded)).length := rfl
    rw [hp, List.length_map, hGlen]
  · intro hne0 hnil
    have hempty_false : (userVotes db user_id).isEmpty = false :=
      Bool.eq_false_iff.mpr (fun h => hnil (List.isEmpty_iff.mp h))
    rw [hag, hempty_false]
    simp only [Bool.false_eq_true, if_false]
    rw [if_neg hne0]
  · intro h0v
    rw [hag]
    cases he : (userVotes db user_id).isEmpty
    · simp only [Bool.false_eq_true, if_false]
      rw [if_pos h0v]
    · simp

/-- Concrete state for the C7 counterexample: one assignment graded 0. -/
def dbMyZero : DB :=
  { users := []
    exams := [⟨"e1", "Algebra Final", 10, 0, 0⟩]
    user_exams := [⟨"u1", "e1", some 0⟩] }

/-- C7 counterexample: a user with exactly one Assignment graded 0 has one
graded exam and a mean of 0, yet the reported `average_grade` is null rather
than 0.0 — refuting "the per-user statistics report ... the mean grade
computed over graded Assignments only, rounded to 2 decimals". -/
theorem my_exams_zero_average_reported_null :
    (get_my_exams dbMyZero "u1").statistics.graded_exams = 1 ∧
    (userVotes dbMyZero "u1").sum / ((userVotes dbMyZero "u1").length : ℚ) = 0 ∧
    round2 ((userVotes dbMyZero "u1").sum / ((userVotes dbMyZero "u1").length : ℚ))
        = 0 ∧
    (get_my_exams dbMyZero "u1").statistics.average_grade = none ∧
    (get_my_exams dbMyZero "u1").statistics.average_grade
        ≠ some (round2
            ((userVotes dbMyZero "u1").sum / ((userVotes dbMyZero "u1").length : ℚ))) := by
  have hv : userVotes dbMyZero "u1" = [0] := by
    simp [userVotes, dbMyZero]
  have hmean : (userVotes dbMyZero "u1").sum / ((userVotes dbMyZero "u1").length : ℚ)
      = 0 := by
    rw [hv]
    simp
  have hnone : (get_my_exams dbMyZero "u1").statistics.average_grade = none :=
    (my_exams_statistics_spec dbMyZero "u1").2.2.2.2.2.2 hmean
  have hr : round2 ((userVotes dbMyZero "u1").sum
      / ((userVotes dbMyZero "u1").length : ℚ)) = 0 := by
    rw [hmean]
    simp [round2]
  refine ⟨?_, hmean, hr, hnone, ?_⟩
  · have := (my_exams_statistics_spec dbMyZero "u1").2.2.2.1
    rw [this, hv]
    rfl
  · rw [hnone]
    simp

/-- Concrete state for the C7 witness: one assignment graded 92. -/
def dbMy92 : DB :=
  { users := []
    exams := [⟨"e1", "Algebra Final", 10, 0, 0⟩]
    user_exams := [⟨"u1", "e1", some 92⟩] }

/-- C7 witness: a user with exactly one Assignment graded 92 has
graded_exams = 1 and average_grade = 92.0, and the letter grade is
derived. -/
theorem my_exams_statistics_spec_witness :
    ((userVotes dbMy92 "u1").sum / ((userVotes dbMy92 "u1").length : ℚ) ≠ 0) ∧
    userVotes dbMy92 "u1" ≠ [] ∧
    (get_my_exams dbMy92 "u1").statistics.graded_exams = 1 ∧
    (get_my_exams dbMy92 "u1").statistics.average_grade = some 92 := by
  have hv : userVotes dbMy92 "u1" = [92] := by
    simp [userVotes, dbMy92]
  have hmean : (userVotes dbMy92 "u1").sum / ((userVotes dbMy92 "u1").length : ℚ)
      = 92 := by
    rw [hv]
    simp
  have hne0 : (userVotes dbMy92 "u1").sum / ((userVotes dbMy92 "u1").length : ℚ)
      ≠ 0 := by
    rw [hmean]
    norm_num
  have hnil : userVotes dbMy92 "u1" ≠ [] := by
    rw [hv]
    simp
  refine ⟨hne0, hnil, ?_, ?_⟩
  · have := (my_exams_statistics_spec dbMy92 "u1").2.2.2.1
    rw [this, hv]
    rfl
  · have := (my_exams_statistics_spec dbMy92 "u1").2.2.2.2.2.1 hne0 hnil
    rw [this, hmean]
    norm_num [round2, round_eq]
